import Mathlib

/-!
Verification of the `cli` scaffolding generator (`src/cli.py`).

The development shallowly embeds the generator: paths are plain strings
(`Path / x` becomes string concatenation with `"/"`), the filesystem is a
partial map from path strings to entries, Python sets are insertion-ordered
duplicate-free lists, and the Python `ast` parse step is an oracle producing
an abstract syntax tree (`ast.parse` is standard-library code, not code of
this repository).  Filesystem primitives are modelled as total functions:
operating-system level failures (permission errors, path/type mismatches)
are outside the model.  External subprocesses (`git init`, the self-doc
subprocess used for README generation) are modelled as oracles whose
outputs the code either discards or absorbs with a fallback.

The file first gives all definitions (translated from `src/cli.py`, with
the clearly-marked `spec...` definitions instead following the wording of
the specification for comparison), then the supporting lemmas and the claim
theorems.
-/

namespace Cli

/-! ## String helpers

Python string primitives used by the generator, implemented by structural
recursion over the character list so that every definition evaluates inside
the kernel.  `split` is only ever applied to one-character separators in the
source, so a one-character split suffices.  The case primitives are modelled
for ASCII text. -/

/-- `s.split(sep)` for a one-character separator, Python semantics:
`"".split(x) = [""]`, separators at the ends produce empty fields. -/
def splitCharAux (sep : Char) : List Char → List Char → List String
  | [], acc => [String.mk acc.reverse]
  | c :: cs, acc =>
      if c = sep then String.mk acc.reverse :: splitCharAux sep cs []
      else splitCharAux sep cs (c :: acc)

def splitChar (sep : Char) (s : String) : List String :=
  splitCharAux sep s.data []

/-- `name.split(".")[0]` — the text before the first dot. -/
def topLevel (s : String) : String :=
  (splitChar '.' s).headD ""

/-- Python `str.strip()` restricted to ASCII whitespace. -/
def pyStrip (s : String) : String :=
  String.mk ((s.data.dropWhile Char.isWhitespace).reverse.dropWhile
    Char.isWhitespace).reverse

/-- Python `str.lower()` restricted to ASCII. -/
def pyLower (s : String) : String :=
  String.mk (s.data.map Char.toLower)

def pyTitleAux : Bool → List Char → List Char
  | _, [] => []
  | prevAlpha, c :: cs =>
      (if prevAlpha then c.toLower else c.toUpper) :: pyTitleAux c.isAlpha cs

/-- Python `str.title()` restricted to ASCII: a letter is uppercased when the
preceding character is not a letter, lowercased otherwise. -/
def pyTitle (s : String) : String :=
  String.mk (pyTitleAux false s.data)

/-- Python `needle in haystack` substring test. -/
def pyContains (haystack needle : String) : Bool :=
  haystack.data.tails.any (fun t => needle.data.isPrefixOf t)

/-- Lexicographic comparison of character lists by code point, as Python
compares strings. -/
def lexLe : List Char → List Char → Bool
  | [], _ => true
  | _ :: _, [] => false
  | a :: as, b :: bs => if a < b then true else if b < a then false else lexLe as bs

/-- Insert a string into an already sorted list. -/
def insertSorted (s : String) : List String → List String
  | [] => [s]
  | x :: xs => if lexLe s.data x.data then s :: x :: xs else x :: insertSorted s xs

/-- Python `sorted` on a list of strings (insertion sort). -/
def pySorted (l : List String) : List String :=
  l.foldr insertSorted []

/-- The final path component of a `/`-separated path (`Path.name`). -/
def pathName (p : String) : String :=
  (splitChar '/' p).getLastD ""

/-- Index (from the front) of the last dot of a name, if any. -/
def lastDotIdx (cs : List Char) : Option Nat :=
  match cs.reverse.findIdx? (· = '.') with
  | some j => some (cs.length - 1 - j)
  | none => none

/-- `Path.suffix`: the extension including the dot; empty when the name has
no dot, starts with its only dot, or ends with a dot. -/
def pathSuffix (p : String) : String :=
  let n := (pathName p).data
  match lastDotIdx n with
  | some i => if 0 < i ∧ i < n.length - 1 then String.mk (n.drop i) else ""
  | none => ""

/-- `Path.stem`: the final component with its suffix removed. -/
def pathStem (p : String) : String :=
  let n := (pathName p).data
  match lastDotIdx n with
  | some i => if 0 < i ∧ i < n.length - 1 then String.mk (n.take i) else String.mk n
  | none => String.mk n

/-- `Path base / child`. -/
def joinPath (base child : String) : String :=
  base ++ "/" ++ child

/-! ## Filesystem model

A flat partial map from absolute path strings to entries.  An entry carries
enough structure for the claims: regular files have content and a
permission mode, directories and symbolic links are markers. -/

inductive Entry where
  | file (content : String) (mode : Nat) : Entry
  | dir : Entry
  | symlink (dest : String) : Entry
deriving DecidableEq, Repr

def FS : Type := String → Option Entry

def setEntry (fs : FS) (p : String) (e : Entry) : FS :=
  fun q => if q = p then some e else fs q

def removeEntry (fs : FS) (p : String) : FS :=
  fun q => if q = p then none else fs q

/-- `path.write_text(content)`: a fresh file gets the default creation mode
`0o644`; overwriting keeps the existing mode. -/
def writeText (fs : FS) (p content : String) : FS :=
  setEntry fs p (.file content
    (match fs p with
     | some (.file _ m) => m
     | _ => 420))

/-- `path.mkdir(parents=True, exist_ok=True)` (parent directories are
assumed present; creation over a non-directory entry is an operating-system
failure outside the model). -/
def mkdirp (fs : FS) (p : String) : FS :=
  match fs p with
  | some .dir => fs
  | _ => setEntry fs p .dir

/-- `shutil.move(src, dst)` for a regular-file source. -/
def moveFile (fs : FS) (src dst : String) : FS :=
  fun q => if q = dst then fs src else if q = src then none else fs q

/-- `shutil.copy2(src, dst)`: copies content and permission metadata. -/
def copyFile (fs : FS) (src dst : String) : FS :=
  fun q => if q = dst then fs src else fs q

/-- `path.read_text()` on a path known to hold a regular file. -/
def readText (fs : FS) (p : String) : String :=
  match fs p with
  | some (.file c _) => c
  | _ => ""

/-! ## make_executable (src/cli.py lines 471-474) -/

def S_IXUSR : Nat := 64
def S_IXGRP : Nat := 8
def S_IXOTH : Nat := 1

/-- The mode written by `path.chmod(current | S_IXUSR | S_IXGRP | S_IXOTH)`. -/
def makeExecutableMode (current : Nat) : Nat :=
  current ||| S_IXUSR ||| S_IXGRP ||| S_IXOTH

/-- `make_executable(path)`: `current = path.stat().st_mode;
path.chmod(current | S_IXUSR | S_IXGRP | S_IXOTH)`. -/
def makeExecutable (fs : FS) (p : String) : FS :=
  match fs p with
  | some (.file c m) => setEntry fs p (.file c (makeExecutableMode m))
  | _ => fs

/-! ## Abstract syntax trees for the dependency sniffer

`detect_imports` consumes the tree produced by `ast.parse` only through
`ast.walk`, `ast.Import` (a list of dotted alias names), and
`ast.ImportFrom` (an optional dotted module name — `None` for a relative
`from . import x`).  The tree is modelled by these two import-statement
shapes plus a generic node carrying child statements; `ast.walk` is the
traversal collecting every node of the tree. -/

mutual
inductive PyNode where
  | imp (names : List String) : PyNode
  | impFrom (module : Option String) : PyNode
  | other (children : PyBody) : PyNode

inductive PyBody where
  | nil : PyBody
  | cons (head : PyNode) (tail : PyBody) : PyBody
end

def PyBody.append : PyBody → PyBody → PyBody
  | .nil, b => b
  | .cons n l, b => .cons n (PyBody.append l b)

mutual
/-- `ast.walk` restricted to one node: the node and all its descendants. -/
def walkNode : PyNode → List PyNode
  | .imp ns => [.imp ns]
  | .impFrom m => [.impFrom m]
  | .other cs => .other cs :: walkBody cs

/-- `ast.walk` over a statement list: all nodes of all trees.  (`ast.walk`
enumerates breadth-first; the order is irrelevant here because the caller
only builds a set.) -/
def walkBody : PyBody → List PyNode
  | .nil => []
  | .cons n l => walkNode n ++ walkBody l
end

/-- The top-level modules one walked node contributes to the import set:
for `ast.Import`, `alias.name.split(".")[0]` of every alias; for
`ast.ImportFrom`, `node.module.split(".")[0]` when `node.module` is truthy
(not `None` and not empty). -/
def nodeTopLevels : PyNode → List String
  | .imp ns => ns.map topLevel
  | .impFrom (some m) => if m = "" then [] else [topLevel m]
  | .impFrom none => []
  | .other _ => []

/-- `set.add`: append unless already present (Python sets are modelled as
insertion-ordered duplicate-free lists). -/
def setAdd (l : List String) (s : String) : List String :=
  if s ∈ l then l else l ++ [s]

/-- `STDLIB_MODULES` (src/cli.py lines 496-526), verbatim. -/
def STDLIB_MODULES : List String :=
  ["abc", "aifc", "argparse", "array", "ast", "asyncio", "atexit", "base64",
   "bdb", "binascii", "binhex", "bisect", "builtins", "bz2", "calendar",
   "cgi", "cgitb", "chunk", "cmath", "cmd", "code", "codecs", "codeop",
   "collections", "colorsys", "compileall", "concurrent", "configparser",
   "contextlib", "contextvars", "copy", "copyreg", "cProfile", "crypt", "csv",
   "ctypes", "curses", "dataclasses", "datetime", "dbm", "decimal", "difflib",
   "dis", "distutils", "doctest", "email", "encodings", "enum", "errno",
   "faulthandler", "fcntl", "filecmp", "fileinput", "fnmatch", "fractions",
   "ftplib", "functools", "gc", "getopt", "getpass", "gettext", "glob",
   "graphlib", "grp", "gzip", "hashlib", "heapq", "hmac", "html", "http",
   "imaplib", "imghdr", "imp", "importlib", "inspect", "io", "ipaddress",
   "itertools", "json", "keyword", "lib2to3", "linecache", "locale",
   "logging", "lzma", "mailbox", "mailcap", "marshal", "math", "mimetypes",
   "mmap", "modulefinder", "multiprocessing", "netrc", "nis", "nntplib",
   "numbers", "operator", "optparse", "os", "ossaudiodev", "pathlib", "pdb",
   "pickle", "pickletools", "pipes", "pkgutil", "platform", "plistlib",
   "poplib", "posix", "posixpath", "pprint", "profile", "pstats", "pty",
   "pwd", "py_compile", "pyclbr", "pydoc", "queue", "quopri", "random", "re",
   "readline", "reprlib", "resource", "rlcompleter", "runpy", "sched",
   "secrets", "select", "selectors", "shelve", "shlex", "shutil", "signal",
   "site", "smtpd", "smtplib", "sndhdr", "socket", "socketserver", "spwd",
   "sqlite3", "ssl", "stat", "statistics", "string", "stringprep", "struct",
   "subprocess", "sunau", "symtable", "sys", "sysconfig", "syslog",
   "tabnanny", "tarfile", "telnetlib", "tempfile", "termios", "test",
   "textwrap", "threading", "time", "timeit", "tkinter", "token", "tokenize",
   "trace", "traceback", "tracemalloc", "tty", "turtle", "turtledemo",
   "types", "typing", "unicodedata", "unittest", "urllib", "uu", "uuid",
   "venv", "warnings", "wave", "weakref", "webbrowser", "winreg", "winsound",
   "wsgiref", "xdrlib", "xml", "xmlrpc", "zipapp", "zipfile", "zipimport",
   "zlib", "_thread"]

/-- `BASE_DEPS` (src/cli.py line 529): dependencies already present in the
manifest template. -/
def BASE_DEPS : List String :=
  ["typer", "rich", "doc2md"]

/-- `detect_imports` (src/cli.py lines 532-556).  The argument is the result
of `ast.parse` on the file's text: `none` models the `SyntaxError` branch.
The walked nodes are folded into a set of top-level module names, from which
the standard-library names and the base dependencies are subtracted. -/
def detect_imports (parsed : Option PyBody) : List String :=
  match parsed with
  | none => []
  | some tree =>
      let imports := (walkBody tree).foldl
        (fun acc node => (nodeTopLevels node).foldl setAdd acc) []
      (imports.filter (fun m => !STDLIB_MODULES.contains m)).filter
        (fun m => !BASE_DEPS.contains m)

/-! Specification-side definitions for the dependency sniffer, following the
words of the specification: "the set of top-level dotted-path components
(text before the first `.`) of all plain-import and from-import statements,
minus the fixed standard-library module-name set and minus the fixed base
dependency set". -/

mutual
/-- Modelled from the spec: the top-level dotted-path components of
the import statements of one statement, nested statements included. -/
def specImportsNode : PyNode → Finset String
  | .imp ns => (ns.map topLevel).toFinset
  | .impFrom (some m) => {topLevel m}
  | .impFrom none => ∅
  | .other cs => specImportsBody cs

/-- Modelled from the spec: the top-level dotted-path components of
every import statement of a parsed source. -/
def specImportsBody : PyBody → Finset String
  | .nil => ∅
  | .cons n l => specImportsNode n ∪ specImportsBody l
end

/-- Modelled from the spec: `importedTopLevelModules − standardLibraryModules
− baseDependencies`. -/
def specThirdParty (tree : PyBody) : Finset String :=
  (specImportsBody tree \ STDLIB_MODULES.toFinset) \ BASE_DEPS.toFinset

mutual
/-- Well-formedness of a node as produced by `ast.parse`: an
`ast.ImportFrom` module is either `None` or a non-empty dotted name. -/
def wfNode : PyNode → Bool
  | .imp _ => true
  | .impFrom (some m) => !(m = "")
  | .impFrom none => true
  | .other cs => wfBody cs

def wfBody : PyBody → Bool
  | .nil => true
  | .cons n l => wfNode n && wfBody l
end

/-! ## The manifest template and generate_pyproject
(src/cli.py lines 369-386 and 477-492)

`PYPROJECT_TEMPLATE` is represented by its list of lines with the `format`
placeholders interpolated; `content.split("\n")` on the formatted template
text yields exactly this list whenever the interpolated name and
description contain no newline, and `generate_pyproject` returns the
`"\n".join` of the processed lines. -/

def PYPROJECT_TEMPLATE_lines (name description : String) : List String :=
  ["[project]",
   "name = \"" ++ name ++ "\"",
   "version = \"0.1.0\"",
   "description = \"" ++ description ++ "\"",
   "requires-python = \">=3.10\"",
   "dependencies = [",
   "    \"typer>=0.15.0\",",
   "    \"rich>=13.7.1\",",
   "    \"doc2md>=0.1.0\",",
   "]",
   "",
   "[project.scripts]",
   name ++ " = \"" ++ name ++ ":app\"",
   "",
   "[build-system]",
   "requires = [\"hatchling\"]",
   "build-backend = \"hatchling.build\"",
   ""]

/-- The marker the insertion loop looks for: `'"doc2md>=0.1.0",' in line`. -/
def DOC2MD_MARKER : String := "\"doc2md>=0.1.0\","

/-- The dependency-list entries generated for an extra-dependency string:
`for dep in extra_deps.split(","): dep = dep.strip(); if dep:
new_lines.append(f'    "{dep}",')`. -/
def depEntries (extra_deps : String) : List String :=
  (splitChar ',' extra_deps).filterMap (fun dep =>
    let d := pyStrip dep
    if d = "" then none else some ("    \"" ++ d ++ "\","))

/-- The line list produced by `generate_pyproject`: every line of the
formatted template, with the generated dependency entries appended after
each line containing the doc2md marker.  `if extra_deps:` is false for
`None` and for the empty string. -/
def generate_pyproject_lines (name description : String)
    (extra_deps : Option String) : List String :=
  let lines := PYPROJECT_TEMPLATE_lines name description
  match extra_deps with
  | none => lines
  | some ed =>
      if ed = "" then lines
      else lines.flatMap (fun line =>
        line :: (if pyContains line DOC2MD_MARKER then depEntries ed else []))

/-- `generate_pyproject` (src/cli.py lines 477-492). -/
def generate_pyproject (name description : String)
    (extra_deps : Option String) : String :=
  String.intercalate "\n" (generate_pyproject_lines name description extra_deps)

/-! ## The embedded script templates (src/cli.py lines 142-245, 247-367,
388-439, 441-465), with Python `.format` interpolation applied: literal
chunks of the template text alternate with the interpolated fields, and the
doubled braces of the source template are rendered as single braces. -/

/-- The plain skeleton template `SKELETON`, with `.format(name=..., description=...)` applied. -/
def SKELETON_fmt (name description : String) : String :=
  "#!/usr/bin/env python\n# encoding: utf-8\nr\"\"\"\n\n"
    ++ name
    ++ "\n\n"
    ++ description
    ++ "\n\n## Overview\n\n## Commands\n\n## Configuration\n\n\"\"\"\n\n#\n# Imports\n#\nfrom rich"
    ++ " import print\nfrom rich import traceback\nfrom rich import pretty\nfrom rich.console impo"
    ++ "rt Console\nimport typer\n\npretty.install()\ntraceback.install()\nconsole = Console()\n\na"
    ++ "pp = typer.Typer(\n    add_completion=False,\n    rich_markup_mode=\"rich\",\n    no_args_"
    ++ "is_help=True,\n    help=\""
    ++ description
    ++ "\",\n    epilog=\"To get help about the script, call it with the --help option.\"\n)\n\n\n#"
    ++ "\n# Command: Example\n#\n@app.command()\ndef example(\n    name: str = typer.Argument(...,"
    ++ " help=\"Name to greet\"),\n    loud: bool = typer.Option(False, \"--loud\", \"-l\", help=\"S"
    ++ "hout the greeting\"),\n):\n    \"\"\"\n    Example command - delete and replace with your "
    ++ "own.\n    \"\"\"\n    greeting = f\"Hello, \x7bname\x7d!\"\n    if loud:\n        greeting"
    ++ " = greeting.upper()\n    console.print(f\"[green]\x7bgreeting\x7d[/green]\")\n\n\n#\n# Com"
    ++ "mand: Doc\n#\n@app.command()\ndef doc(\n    ctx: typer.Context,\n    title: str = typer.Op"
    ++ "tion(None, help=\"The title of the document\"),\n    toc: bool = typer.Option(False, help="
    ++ "\"Whether to create a table of contents\"),\n) -> None:\n    \"\"\"\n    Re-create the doc"
    ++ "umentation and write it to the output file.\n    \"\"\"\n    import importlib\n    import "
    ++ "importlib.util\n    import sys\n    import os\n    import doc2md\n\n    def import_path(pa"
    ++ "th):\n        module_name = os.path.basename(path).replace(\"-\", \"_\")\n        spec = i"
    ++ "mportlib.util.spec_from_loader(\n            module_name,\n            importlib.machinery"
    ++ ".SourceFileLoader(module_name, path),\n        )\n        module = importlib.util.module_f"
    ++ "rom_spec(spec)\n        spec.loader.exec_module(module)\n        sys.modules[module_name] "
    ++ "= module\n        return module\n\n    mod_name = os.path.basename(__file__)\n    if mod_n"
    ++ "ame.endswith(\".py\"):\n        mod_name = mod_name.rsplit(\".py\", 1)[0]\n    atitle = ti"
    ++ "tle or mod_name.replace(\"_\", \"-\")\n    module = import_path(__file__)\n    docstr = mo"
    ++ "dule.__doc__\n    result = doc2md.doc2md(docstr, atitle, toc=toc, min_level=0)\n    print("
    ++ "result)\n\n\n#\n# Main function\n#\nif __name__ == \"__main__\":\n    try:\n        app()\n "
    ++ "   except SystemExit as e:\n        if e.code != 0:\n            raise\n"

/-- The default-command skeleton template `SKELETON_WITH_DEFAULT`, with `.format` applied. -/
def SKELETON_WITH_DEFAULT_fmt (name name_lower description default_cmd default_cmd_title : String) : String :=
  "#!/usr/bin/env python\n# encoding: utf-8\nr\"\"\"\n\n"
    ++ name
    ++ "\n\n"
    ++ description
    ++ "\n\n## Overview\n\n## Usage\n\n    "
    ++ name_lower
    ++ " [ARGS] [OPTIONS]\n\nArguments passed directly are forwarded to the `"
    ++ default_cmd
    ++ "` command.\n\n## Commands\n\n- `"
    ++ default_cmd
    ++ "` - Default command (runs when no command specified)\n- `doc` - Generate documentation\n\n#"
    ++ "# Configuration\n\n\"\"\"\n\n#\n# Imports\n#\nfrom rich import print\nfrom rich import tra"
    ++ "ceback\nfrom rich import pretty\nfrom rich.console import Console\nimport typer\n\npretty."
    ++ "install()\ntraceback.install()\nconsole = Console()\n\napp = typer.Typer(\n    add_complet"
    ++ "ion=False,\n    rich_markup_mode=\"rich\",\n    no_args_is_help=False,\n    help=\""
    ++ description
    ++ "\",\n    epilog=\"To get help about the script, call it with the --help option.\"\n)\n\n\n#"
    ++ "\n# Command: "
    ++ default_cmd_title
    ++ "\n#\n@app.command()\ndef "
    ++ default_cmd
    ++ "(\n    arg: str = typer.Argument(\"\", help=\"Argument for "
    ++ default_cmd
    ++ "\"),\n):\n    \"\"\"\n    Default command - runs when no subcommand specified.\n    \"\"\"\n "
    ++ "   console.print(f\"[green]Running "
    ++ default_cmd
    ++ " with: \x7barg\x7d[/green]\")\n\n\n#\n# Command: Doc\n#\n@app.command()\ndef doc(\n    ctx"
    ++ ": typer.Context,\n    title: str = typer.Option(None, help=\"The title of the document\"),"
    ++ "\n    toc: bool = typer.Option(False, help=\"Whether to create a table of contents\"),\n) "
    ++ "-> None:\n    \"\"\"\n    Re-create the documentation and write it to the output file.\n  "
    ++ "  \"\"\"\n    import importlib\n    import importlib.util\n    import sys\n    import os\n "
    ++ "   import doc2md\n\n    def import_path(path):\n        module_name = os.path.basename(pat"
    ++ "h).replace(\"-\", \"_\")\n        spec = importlib.util.spec_from_loader(\n            mod"
    ++ "ule_name,\n            importlib.machinery.SourceFileLoader(module_name, path),\n        )"
    ++ "\n        module = importlib.util.module_from_spec(spec)\n        spec.loader.exec_module("
    ++ "module)\n        sys.modules[module_name] = module\n        return module\n\n    mod_name "
    ++ "= os.path.basename(__file__)\n    if mod_name.endswith(\".py\"):\n        mod_name = mod_n"
    ++ "ame.rsplit(\".py\", 1)[0]\n    atitle = title or mod_name.replace(\"_\", \"-\")\n    modul"
    ++ "e = import_path(__file__)\n    docstr = module.__doc__\n    result = doc2md.doc2md(docstr,"
    ++ " atitle, toc=toc, min_level=0)\n    print(result)\n\n\n#\n# Main function\n#\nif __name__ "
    ++ "== \"__main__\":\n    import sys\n\n    # Get registered command names dynamically\n    co"
    ++ "mmands = \x7bcmd.callback.__name__ for cmd in app.registered_commands if cmd.callback\x7d\n "
    ++ "   options = \x7b\"--help\", \"-h\"\x7d\n\n    # Default to \x27"
    ++ default_cmd
    ++ "\x27 command if first arg isn\x27t a known command or option\n    if len(sys.argv) == 1:\n "
    ++ "       sys.argv.append(\""
    ++ default_cmd
    ++ "\")\n    elif sys.argv[1] not in commands | options:\n        sys.argv.insert(1, \""
    ++ default_cmd
    ++ "\")\n\n    try:\n        app()\n    except SystemExit as e:\n        if e.code != 0:\n    "
    ++ "        raise\n"

/-- The fixed `GITIGNORE_TEMPLATE` text. -/
def GITIGNORE_TEMPLATE : String :=
  "# macOS\n.DS_Store\n\n# Python\n__pycache__/\n*.py[cod]\n*$py.class\n*.so\n.Python\nbuild/"
    ++ "\ndevelop-eggs/\ndist/\ndownloads/\neggs/\n.eggs/\nlib/\nlib64/\nparts/\nsdist/\nvar/\nwhe"
    ++ "els/\n*.egg-info/\n.installed.cfg\n*.egg\n\n# Virtual environments\n.env\n.venv/\nenv/\nve"
    ++ "nv/\nENV/\n\n# IDE\n.vscode/\n.idea/\n*.swp\n*.swo\n*~\n\n# Claude Code\n.claude/\n\n# Tes"
    ++ "ting\n.pytest_cache/\n.coverage\nhtmlcov/\n.tox/\n.nox/\n\n# Logs\n*.log\n"

/-- The `README_TEMPLATE` text with `.format(name=..., description=...)` applied. -/
def README_TEMPLATE_fmt (name description : String) : String :=
  "# "
    ++ name
    ++ "\n\n"
    ++ description
    ++ "\n\n## Installation\n\n```bash\ncd dev."
    ++ name
    ++ "\nuv sync\n```\n\n## Usage\n\n```bash\nuv run "
    ++ name
    ++ " --help\n# Or after installing in dev mode:\nuv pip install -e .\n"
    ++ name
    ++ " --help\n```\n\n## Commands\n\n- `example` - Example command (replace with your own)\n- `d"
    ++ "oc` - Generate documentation\n"

/-! ## Configuration and the `new` command (src/cli.py lines 578-705) -/

/-- The directory configuration read at start-up: `PAI_BIN_DIR`,
`SCRIPTS_DIR` (each an environment variable with a fixed home-relative
fallback) and the current working directory. -/
structure Config where
  paiBinDir : String
  scriptsDir : String
  cwd : String

/-- The arguments of `new` after option parsing.  `default` and `deps`
default to `None`; the flags default to `False`. -/
structure NewArgs where
  name : String
  description : String
  default : Option String
  deps : Option String
  pai : Bool
  standalone : Bool
  force : Bool

/-- The target-path resolution of `new` (src/cli.py lines 623-638): the
target file, and for standalone placement also the container directory and
the symlink path. -/
def resolveNew (cfg : Config) (name : String) (pai standalone : Bool) :
    String × Option String × Option String :=
  if standalone then
    let tool_dir := joinPath cfg.scriptsDir ("dev." ++ name)
    (joinPath tool_dir (name ++ ".py"), some tool_dir,
      some (joinPath cfg.scriptsDir name))
  else if pai then
    (joinPath cfg.paiBinDir (name ++ ".py"), none, none)
  else
    (joinPath cfg.cwd (name ++ ".py"), none, none)

/-- `create_cli_file` (src/cli.py lines 559-572): render the skeleton
(`if default_cmd:` is false for `None` and for the empty string), write it,
mark it executable. -/
def create_cli_file (fs : FS) (path name description : String)
    (default_cmd : Option String) : FS :=
  let content :=
    match default_cmd with
    | some d =>
        if d = "" then SKELETON_fmt (pyTitle name) description
        else SKELETON_WITH_DEFAULT_fmt (pyTitle name) (pyLower name)
          description d (pyTitle d)
    | none => SKELETON_fmt (pyTitle name) description
  makeExecutable (writeText fs path content) path

/-- The `new` command (src/cli.py lines 578-705).  Returns the exit code
(`some 1` for `typer.Exit(code=1)`, `none` for a successful run) and the
resulting filesystem.  Console output is not modelled; the `git init`
subprocess has its output captured and discarded and does not touch the
modelled artifacts. -/
def new (cfg : Config) (a : NewArgs) (fs : FS) : Option Nat × FS :=
  if a.pai && a.standalone then (some 1, fs)
  else
    let r := resolveNew cfg a.name a.pai a.standalone
    let target := r.1
    if (fs target).isSome && !a.force then (some 1, fs)
    else if a.standalone then
      let tool_dir := r.2.1.getD ""
      let symlink := r.2.2.getD ""
      if (fs tool_dir).isSome && !a.force then (some 1, fs)
      else
        let fs1 := mkdirp fs tool_dir
        let fs2 := writeText fs1 (joinPath tool_dir "pyproject.toml")
          (generate_pyproject a.name a.description a.deps)
        let fs3 := writeText fs2 (joinPath tool_dir "README.md")
          (README_TEMPLATE_fmt a.name a.description)
        let fs4 := writeText fs3 (joinPath tool_dir ".gitignore")
          GITIGNORE_TEMPLATE
        let fs5 := create_cli_file fs4 target a.name a.description a.default
        let fs6 := if (fs5 symlink).isSome then removeEntry fs5 symlink else fs5
        let fs7 := setEntry fs6 symlink (.symlink target)
        (none, fs7)
    else
      (none, create_cli_file fs target a.name a.description a.default)

/-! ## The `deploy` command (src/cli.py lines 711-849) -/

/-- The arguments of `deploy` after option parsing.  `file` is the source
path after `file.resolve()`. -/
structure DeployArgs where
  file : String
  name : Option String
  move : Bool
  force : Bool

/-- The external inputs a `deploy` run observes: the `ast.parse` result of
the deployed text (`none` for a `SyntaxError`), the parsed module docstring
(`none` when extraction raises or there is no docstring), and the outcome of
the `python target doc` subprocess (`none` when `subprocess.run` raises,
otherwise return code and standard output). -/
structure DeployEnv where
  parse : String → Option PyBody
  docstring : String → Option String
  docRun : Option (Int × String)

/-- `tool_name = name or file.stem` (Python `or`: an absent or empty
`--name` falls back to the stem). -/
def deployToolName (a : DeployArgs) : String :=
  match a.name with
  | some n => if n = "" then pathStem a.file else n
  | none => pathStem a.file

/-- `tool_dir = SCRIPTS_DIR / f"dev.{tool_name}"` (src/cli.py line 752). -/
def deployToolDir (cfg : Config) (a : DeployArgs) : String :=
  joinPath cfg.scriptsDir ("dev." ++ deployToolName a)

/-- `target = tool_dir / f"{tool_name}.py"` (src/cli.py line 753). -/
def deployTarget (cfg : Config) (a : DeployArgs) : String :=
  joinPath (deployToolDir cfg a) (deployToolName a ++ ".py")

/-- `symlink = SCRIPTS_DIR / tool_name` (src/cli.py line 754). -/
def deploySymlink (cfg : Config) (a : DeployArgs) : String :=
  joinPath cfg.scriptsDir (deployToolName a)

/-- The description fallback used throughout. -/
def FALLBACK_DESC : String := "A command-line tool"

/-- Description extraction (src/cli.py lines 779-788): first non-empty line
of the module docstring, with the generic fallback on a missing or empty
docstring or any extraction failure. -/
def deployDesc (env : DeployEnv) (content : String) : String :=
  match env.docstring content with
  | some ds =>
      if ds = "" then FALLBACK_DESC
      else
        let first_line := (splitChar '\n' (pyStrip ds)).headD ""
        if first_line = "" then FALLBACK_DESC else first_line
  | none => FALLBACK_DESC

/-- README generation (src/cli.py lines 795-814): the self-doc subprocess
output when it exits zero with non-blank output, else the minimal fallback
(also on a raised exception). -/
def deployReadme (env : DeployEnv) (tool_name : String) : String :=
  match env.docRun with
  | some (code, out) =>
      if code = 0 && !(pyStrip out = "") then out
      else "# " ++ tool_name ++ "\n\nDeployed CLI tool.\n"
  | none => "# " ++ tool_name ++ "\n\nDeployed CLI tool.\n"

/-- The `deploy` command (src/cli.py lines 711-849).  Returns the exit code
and the resulting filesystem; the `git init` subprocess has its output
captured and discarded and does not touch the modelled artifacts. -/
def deploy (cfg : Config) (env : DeployEnv) (a : DeployArgs) (fs : FS) :
    Option Nat × FS :=
  if (fs a.file).isNone then (some 1, fs)
  else if !(pathSuffix a.file = ".py") then (some 1, fs)
  else
    let tool_name := deployToolName a
    let tool_dir := deployToolDir cfg a
    let target := deployTarget cfg a
    let symlink := deploySymlink cfg a
    if (fs tool_dir).isSome && !a.force then (some 1, fs)
    else
      let fs1 := mkdirp fs tool_dir
      let fs2 := if a.move then moveFile fs1 a.file target
                 else copyFile fs1 a.file target
      let fs3 := makeExecutable fs2 target
      let content := readText fs3 target
      let detected := detect_imports (env.parse content)
      let deps_str : Option String :=
        if detected.isEmpty then none
        else some (String.intercalate "," (pySorted detected))
      let fs4 := writeText fs3 (joinPath tool_dir "pyproject.toml")
        (generate_pyproject tool_name (deployDesc env content) deps_str)
      let fs5 := writeText fs4 (joinPath tool_dir "README.md")
        (deployReadme env tool_name)
      let fs6 := writeText fs5 (joinPath tool_dir ".gitignore")
        GITIGNORE_TEMPLATE
      let fs7 := if (fs6 symlink).isSome then removeEntry fs6 symlink else fs6
      let fs8 := setEntry fs7 symlink (.symlink target)
      (none, fs8)

/-! ## Specification-side fatal-exit predicates -/

/-- Modelled from the spec: the fatal conditions of `new` — conflicting
placement flags, or a destination (target file, or container directory for
standalone placement) that already exists without the overwrite flag. -/
def specNewFatal (cfg : Config) (a : NewArgs) (fs : FS) : Bool :=
  (a.pai && a.standalone)
  || ((fs (resolveNew cfg a.name a.pai a.standalone).1).isSome && !a.force)
  || (a.standalone &&
      ((fs ((resolveNew cfg a.name a.pai a.standalone).2.1.getD "")).isSome
        && !a.force))

/-- Modelled from the spec: the fatal conditions of `deploy` — source file
not found, source file of the wrong type, or an existing destination
container directory without the overwrite flag. -/
def specDeployFatal (cfg : Config) (a : DeployArgs) (fs : FS) : Bool :=
  (fs a.file).isNone
  || !(pathSuffix a.file = ".py")
  || ((fs (deployToolDir cfg a)).isSome && !a.force)

/-! ## Concrete fixtures used by witnesses -/

/-- The parse tree of the spec example source
`import os` / `import httpx` / `from bs4 import BeautifulSoup`. -/
def exampleImports : PyBody :=
  .cons (.imp ["os"]) (.cons (.imp ["httpx"])
    (.cons (.impFrom (some "bs4")) .nil))

/-- A filesystem holding one script file. -/
def fsOneFile : FS :=
  fun q => if q = "/home/u/w/foo.py" then some (.file "print(1)\n" 420) else none

/-- A filesystem holding one script file and one already existing
destination directory. -/
def fsFileAndDir : FS :=
  fun q =>
    if q = "/home/u/w/foo.py" then some (.file "print(1)\n" 420)
    else if q = "/home/u/scripts/dev.foo" then some .dir
    else none

/-- A sample configuration. -/
def cfg0 : Config :=
  ⟨"/home/u/.claude/bin", "/home/u/scripts", "/home/u/w"⟩

/-- A sample environment for `deploy`: the deployed text parses to an empty
module, has no docstring, and the self-doc subprocess fails. -/
def env0 : DeployEnv :=
  ⟨fun _ => some .nil, fun _ => none, none⟩

/-- `new` arguments carrying both placement flags. -/
def argsC3 : NewArgs :=
  ⟨"mytool", "A command-line tool", none, none, true, true, false⟩

/-- `new` arguments whose project-local target is the existing file of
`fsOneFile`. -/
def argsC2 : NewArgs :=
  ⟨"foo", "A command-line tool", none, none, false, false, false⟩

/-- `deploy` arguments for the existing source file of `fsFileAndDir`,
whose container directory also already exists there. -/
def dargsC2 : DeployArgs := ⟨"/home/u/w/foo.py", none, false, false⟩

/-- `deploy` arguments moving the file of `fsOneFile`. -/
def dargsC7 : DeployArgs := ⟨"/home/u/w/foo.py", none, true, false⟩

/-! # Lemmas -/

@[simp] theorem setEntry_same (fs : FS) (p : String) (e : Entry) :
    setEntry fs p e p = some e := by
  simp [setEntry]

theorem setEntry_ne (fs : FS) (p q : String) (e : Entry) (h : q ≠ p) :
    setEntry fs p e q = fs q := by
  simp [setEntry, h]

theorem removeEntry_ne (fs : FS) (p q : String) (h : q ≠ p) :
    removeEntry fs p q = fs q := by
  simp [removeEntry, h]

theorem mem_flatMap_self (g : String → List String) (x : String)
    (l : List String) (hx : x ∈ l) :
    x ∈ l.flatMap (fun line => line :: g line) :=
  List.mem_flatMap.2 ⟨x, hx, List.mem_cons_self x _⟩

theorem writeText_ne (fs : FS) (p content q : String) (h : q ≠ p) :
    writeText fs p content q = fs q := by
  simp [writeText, setEntry, h]

theorem mkdirp_ne (fs : FS) (p q : String) (h : q ≠ p) :
    mkdirp fs p q = fs q := by
  cases hfp : fs p with
  | none => simp [mkdirp, hfp, setEntry, h]
  | some e => cases e <;> simp [mkdirp, hfp, setEntry, h]

theorem makeExecutable_ne (fs : FS) (p q : String) (h : q ≠ p) :
    makeExecutable fs p q = fs q := by
  cases hfp : fs p with
  | none => simp [makeExecutable, hfp]
  | some e => cases e <;> simp [makeExecutable, hfp, setEntry, h]

theorem makeExecutable_file (fs : FS) (p c : String) (m : Nat)
    (h : fs p = some (.file c m)) :
    makeExecutable fs p p = some (.file c (makeExecutableMode m)) := by
  simp [makeExecutable, h]

theorem unlinkIf_ne (fs : FS) (p q : String) (h : q ≠ p) :
    (if (fs p).isSome then removeEntry fs p else fs) q = fs q := by
  split <;> simp [removeEntry, h]

theorem moveFile_dst (fs : FS) (src dst : String) :
    moveFile fs src dst dst = fs src := by
  simp [moveFile]

theorem moveFile_src (fs : FS) (src dst : String) (h : src ≠ dst) :
    moveFile fs src dst src = none := by
  simp [moveFile, h]

theorem copyFile_dst (fs : FS) (src dst : String) :
    copyFile fs src dst dst = fs src := by
  simp [copyFile]

theorem copyFile_ne (fs : FS) (src dst q : String) (h : q ≠ dst) :
    copyFile fs src dst q = fs q := by
  simp [copyFile, h]

theorem joinPath_inj_right (a b c : String) (h : joinPath a b = joinPath a c) :
    b = c := by
  unfold joinPath at h
  have hd := congrArg String.data h
  simp only [String.data_append, List.append_assoc] at hd
  exact String.ext (List.append_cancel_left (List.append_cancel_left hd))

theorem append_py_ne (tn X : String) (hX : X.data.getLast? ≠ some 'y') :
    tn ++ ".py" ≠ X := by
  intro h
  apply hX
  rw [← h]
  simp [String.data_append]

theorem deployTarget_ne_file (cfg : Config) (a : DeployArgs) (X : String)
    (hX : X.data.getLast? ≠ some 'y') :
    deployTarget cfg a ≠ joinPath (deployToolDir cfg a) X := by
  intro h
  exact append_py_ne (deployToolName a) X hX (joinPath_inj_right _ _ _ h)

theorem deployTarget_ne_symlink (cfg : Config) (a : DeployArgs) :
    deployTarget cfg a ≠ deploySymlink cfg a := by
  intro h
  have hl := congrArg String.length h
  have e4 : "dev.".length = 4 := rfl
  have e3 : ".py".length = 3 := rfl
  have e1 : "/".length = 1 := rfl
  simp [deployTarget, deployToolDir, deploySymlink, joinPath,
    String.length_append, e4, e3, e1] at hl
  omega

theorem deployTarget_ne_toolDir (cfg : Config) (a : DeployArgs) :
    deployTarget cfg a ≠ deployToolDir cfg a := by
  intro h
  have hl := congrArg String.length h
  have e4 : "dev.".length = 4 := rfl
  have e3 : ".py".length = 3 := rfl
  have e1 : "/".length = 1 := rfl
  simp [deployTarget, deployToolDir, joinPath, String.length_append,
    e4, e3, e1] at hl
  omega

/-! # Claim theorems -/


theorem mem_setAdd (m s : String) (l : List String) :
    m ∈ setAdd l s ↔ m ∈ l ∨ m = s := by
  unfold setAdd
  split
  · rename_i h
    constructor
    · exact Or.inl
    · rintro (hm | rfl)
      · exact hm
      · exact h
  · simp

theorem mem_foldl_setAdd (m : String) (l acc : List String) :
    m ∈ l.foldl setAdd acc ↔ m ∈ acc ∨ m ∈ l := by
  induction l generalizing acc with
  | nil => simp
  | cons x xs ih =>
      simp only [List.foldl_cons, ih, mem_setAdd, List.mem_cons]
      tauto

theorem mem_importsFold (m : String) (ns : List PyNode) (acc : List String) :
    m ∈ ns.foldl (fun acc node => (nodeTopLevels node).foldl setAdd acc) acc
      ↔ m ∈ acc ∨ ∃ n ∈ ns, m ∈ nodeTopLevels n := by
  induction ns generalizing acc with
  | nil => simp
  | cons x xs ih =>
      simp only [List.foldl_cons, ih, mem_foldl_setAdd, List.mem_cons]
      constructor
      · rintro ((h | h) | ⟨n, hn, hm⟩)
        · exact Or.inl h
        · exact Or.inr ⟨x, Or.inl rfl, h⟩
        · exact Or.inr ⟨n, Or.inr hn, hm⟩
      · rintro (h | ⟨n, (rfl | hn), hm⟩)
        · exact Or.inl (Or.inl h)
        · exact Or.inl (Or.inr hm)
        · exact Or.inr ⟨n, hn, hm⟩

mutual
/-- A walked node of a well-formed tree contributes exactly the top-level
modules named by the specification-side collection. -/
theorem walkNode_topLevels (m : String) :
    ∀ x : PyNode, wfNode x = true →
      ((∃ n ∈ walkNode x, m ∈ nodeTopLevels n) ↔ m ∈ specImportsNode x)
  | .imp ns, _ => by
      simp [walkNode, nodeTopLevels, specImportsNode]
  | .impFrom (some md), h => by
      have hmd : ¬ md = "" := by simpa [wfNode] using h
      simp [walkNode, nodeTopLevels, specImportsNode, hmd]
  | .impFrom none, _ => by
      simp [walkNode, nodeTopLevels, specImportsNode]
  | .other cs, h => by
      have hcs : wfBody cs = true := by simpa [wfNode] using h
      have ih := walkBody_topLevels m cs hcs
      simp only [walkNode, List.mem_cons, specImportsNode]
      rw [← ih]
      constructor
      · rintro ⟨n, (rfl | hn), hm⟩
        · simp [nodeTopLevels] at hm
        · exact ⟨n, hn, hm⟩
      · rintro ⟨n, hn, hm⟩
        exact ⟨n, Or.inr hn, hm⟩

theorem walkBody_topLevels (m : String) :
    ∀ b : PyBody, wfBody b = true →
      ((∃ n ∈ walkBody b, m ∈ nodeTopLevels n) ↔ m ∈ specImportsBody b)
  | .nil, _ => by simp [walkBody, specImportsBody]
  | .cons x l, h => by
      have hx : wfNode x = true := by
        have := h; simp [wfBody, Bool.and_eq_true] at this; exact this.1
      have hl : wfBody l = true := by
        have := h; simp [wfBody, Bool.and_eq_true] at this; exact this.2
      have ih1 := walkNode_topLevels m x hx
      have ih2 := walkBody_topLevels m l hl
      simp only [walkBody, List.mem_append, specImportsBody, Finset.mem_union]
      rw [← ih1, ← ih2]
      constructor
      · rintro ⟨n, (hn | hn), hm⟩
        · exact Or.inl ⟨n, hn, hm⟩
        · exact Or.inr ⟨n, hn, hm⟩
      · rintro (⟨n, hn, hm⟩ | ⟨n, hn, hm⟩)
        · exact ⟨n, Or.inl hn, hm⟩
        · exact ⟨n, Or.inr hn, hm⟩
end

/-- `detect_imports` computes exactly the specified set difference on every
well-formed parse tree. -/
theorem detect_imports_toFinset (tree : PyBody) (h : wfBody tree = true) :
    (detect_imports (some tree)).toFinset = specThirdParty tree := by
  ext m
  simp only [detect_imports, List.mem_toFinset, List.mem_filter,
    specThirdParty, Finset.mem_sdiff, mem_importsFold, List.not_mem_nil,
    false_or, Bool.not_eq_true', List.contains, List.elem_eq_mem,
    decide_eq_false_iff_not]
  rw [walkBody_topLevels m tree h]

theorem walkBody_append :
    ∀ a b : PyBody, walkBody (a.append b) = walkBody a ++ walkBody b
  | .nil, b => by simp [PyBody.append, walkBody]
  | .cons n l, b => by simp [PyBody.append, walkBody, walkBody_append l b]

/-- C1: for every (well-formed) parsed Python source, `detect_imports`
returns exactly the set of top-level dotted-path components of all
plain-import and from-import statements, minus the fixed standard-library
set and minus the base-dependency set; in particular, on a source holding
`import os` / `import httpx` / `from bs4 import BeautifulSoup` it returns
exactly the set containing "httpx" and "bs4". -/
theorem detect_imports_third_party :
    (∀ tree : PyBody, wfBody tree = true →
      (detect_imports (some tree)).toFinset = specThirdParty tree) ∧
    (detect_imports (some exampleImports)).toFinset
      = ({"httpx", "bs4"} : Finset String) :=
  ⟨fun tree h => detect_imports_toFinset tree h, by decide⟩

/-- Witness for C1 at the example source of the spec. -/
theorem detect_imports_third_party_witness :
    wfBody exampleImports = true ∧
    (detect_imports (some exampleImports)).toFinset
      = specThirdParty exampleImports :=
  ⟨by decide, detect_imports_third_party.1 exampleImports (by decide)⟩

/-- C5: on a syntactically invalid source — one where `ast.parse` raises
`SyntaxError`, modelled as parse result `none` — `detect_imports` returns
the empty set (and, being a total function, does not raise). -/
theorem detect_imports_parse_error_empty : detect_imports none = [] := rfl

/-- C9: a relative from-import (an `ast.ImportFrom` whose module is `None`)
contributes nothing to `detect_imports`, wherever it occurs in the
statement list: inserting one changes nothing about the result. -/
theorem relative_imports_contribute_nothing (pre post : PyBody) :
    detect_imports (some (pre.append (.cons (.impFrom none) post)))
      = detect_imports (some (pre.append post)) := by
  simp [detect_imports, walkBody_append, walkBody, walkNode, List.foldl_append,
    nodeTopLevels]

/-- C8: marking a file executable (`make_executable`) sets the resulting
permission mode to the prior mode with the owner, group and other execute
bits (bits 6, 3 and 0) added, and leaves every other mode bit — and the
file's content — unchanged. -/
theorem make_executable_adds_exec_bits :
    (∀ (fs : FS) (p c : String) (m : Nat), fs p = some (.file c m) →
      makeExecutable fs p p = some (.file c (makeExecutableMode m))) ∧
    (∀ m i : Nat, (makeExecutableMode m).testBit i
      = (m.testBit i || decide (i = 0 ∨ i = 3 ∨ i = 6))) := by
  constructor
  · intro fs p c m h
    simp [makeExecutable, h]
  · intro m i
    have h64 : Nat.testBit 64 i = decide (i = 6) := by
      rw [show (64 : Nat) = 2 ^ 6 by norm_num, Nat.testBit_two_pow]
      simp [eq_comm]
    have h8 : Nat.testBit 8 i = decide (i = 3) := by
      rw [show (8 : Nat) = 2 ^ 3 by norm_num, Nat.testBit_two_pow]
      simp [eq_comm]
    have h1 : Nat.testBit 1 i = decide (i = 0) := by
      rw [show (1 : Nat) = 2 ^ 0 by norm_num, Nat.testBit_two_pow]
      simp [eq_comm]
    simp only [makeExecutableMode, S_IXUSR, S_IXGRP, S_IXOTH, Nat.testBit_lor,
      h64, h8, h1]
    by_cases h0 : i = 0 <;> by_cases h3 : i = 3 <;> by_cases h6 : i = 6 <;>
      simp [h0, h3, h6]

/-- Witness for C8 at a concrete file of mode `0o644`. -/
theorem make_executable_adds_exec_bits_witness :
    makeExecutable fsOneFile "/home/u/w/foo.py" "/home/u/w/foo.py"
      = some (.file "print(1)\n" (makeExecutableMode 420)) ∧
    (makeExecutableMode 420).testBit 2
      = ((420 : Nat).testBit 2 || decide ((2 : Nat) = 0 ∨ (2 : Nat) = 3 ∨ (2 : Nat) = 6)) :=
  ⟨make_executable_adds_exec_bits.1 fsOneFile "/home/u/w/foo.py" "print(1)\n" 420
    (by decide),
   make_executable_adds_exec_bits.2 420 2⟩


/-- C4: resolving paths for Standalone placement yields
containerDirectory = scriptsRoot/dev.{name}, targetFile =
containerDirectory/{name}.py and symlinkPath = scriptsRoot/{name} (for both
`new` and `deploy`, which resolve identically), while ProjectLocal
placement yields currentDirectory/{name}.py with no container directory and
no symlink. -/
theorem resolve_paths_standalone_and_local (cfg : Config) (name : String)
    (pai : Bool) (a : DeployArgs) :
    (resolveNew cfg name pai true
      = (joinPath (joinPath cfg.scriptsDir ("dev." ++ name)) (name ++ ".py"),
         some (joinPath cfg.scriptsDir ("dev." ++ name)),
         some (joinPath cfg.scriptsDir name))) ∧
    (resolveNew cfg name false false
      = (joinPath cfg.cwd (name ++ ".py"), none, none)) ∧
    ((deployTarget cfg a, some (deployToolDir cfg a), some (deploySymlink cfg a))
      = resolveNew cfg (deployToolName a) false true) :=
  ⟨by simp [resolveNew], by simp [resolveNew],
   by simp [resolveNew, deployTarget, deployToolDir, deploySymlink]⟩

/-- C3: requesting the SharedBin (`--pai`) and Standalone (`--standalone`)
placements together makes `new` exit with code 1 before performing any
filesystem write, whatever the other arguments: the filesystem is returned
untouched. -/
theorem conflicting_placement_flags_abort (cfg : Config) (a : NewArgs)
    (fs : FS) (hp : a.pai = true) (hs : a.standalone = true) :
    new cfg a fs = (some 1, fs) := by
  simp [new, hp, hs]

/-- Witness for C3 at concrete arguments carrying both flags. -/
theorem conflicting_placement_flags_abort_witness :
    new cfg0 argsC3 fsOneFile = (some 1, fsOneFile) :=
  conflicting_placement_flags_abort cfg0 argsC3 fsOneFile rfl rfl

/-- C2: with an existing destination and no overwrite flag, `new` (existing
target file, or existing container directory in standalone placement) and
`deploy` (existing container directory) exit with code 1 and perform no
filesystem writes: the filesystem is returned exactly as it was. -/
theorem existing_destination_aborts_without_writes :
    (∀ (cfg : Config) (a : NewArgs) (fs : FS), a.force = false →
      ((fs (resolveNew cfg a.name a.pai a.standalone).1).isSome = true ∨
       (a.standalone = true ∧
        (fs ((resolveNew cfg a.name a.pai a.standalone).2.1.getD "")).isSome = true)) →
      new cfg a fs = (some 1, fs)) ∧
    (∀ (cfg : Config) (env : DeployEnv) (a : DeployArgs) (fs : FS),
      a.force = false →
      (fs a.file).isSome = true → pathSuffix a.file = ".py" →
      (fs (deployToolDir cfg a)).isSome = true →
      deploy cfg env a fs = (some 1, fs)) := by
  constructor
  · intro cfg a fs hf hex
    cases hpai : a.pai <;> cases hsa : a.standalone <;> rw [hpai, hsa] at hex
    · rcases hex with ht | ⟨h2, _⟩
      · simp [new, hpai, hsa, hf, ht]
      · simp at h2
    · rcases hex with ht | ⟨_, hd⟩
      · simp [new, hpai, hsa, hf, ht]
      · by_cases ht : (fs (resolveNew cfg a.name false true).1).isSome = true
        · simp [new, hpai, hsa, hf, ht]
        · simp [new, hpai, hsa, hf, ht, hd]
    · rcases hex with ht | ⟨h2, _⟩
      · simp [new, hpai, hsa, hf, ht]
      · simp at h2
    · simp [new, hpai, hsa]
  · intro cfg env a fs hf hfile hsuf hdir
    have hn : (fs a.file).isNone = false := by cases h : fs a.file <;> simp_all
    simp [deploy, hn, hsuf, hdir, hf]

/-- Witness for C2: `new` on an existing target file, and `deploy` on an
existing container directory, both without `--force`. -/
theorem existing_destination_aborts_without_writes_witness :
    new cfg0 argsC2 fsOneFile = (some 1, fsOneFile) ∧
    deploy cfg0 env0 dargsC2 fsFileAndDir = (some 1, fsFileAndDir) :=
  ⟨existing_destination_aborts_without_writes.1 cfg0 argsC2 fsOneFile rfl
    (Or.inl (by decide)),
   existing_destination_aborts_without_writes.2 cfg0 env0 dargsC2 fsFileAndDir
    rfl (by decide) (by decide) (by decide)⟩

/-- C6: the two commands exit non-zero exactly on the fatal conditions the
spec names — conflicting placement flags, destination already existing
without overwrite, deploy source not found, deploy source of the wrong type
— and exit zero otherwise, for every outcome of the absorbed side
computations (parse result, docstring extraction, self-doc subprocess; the
version-control subprocess output is discarded). -/
theorem exit_code_iff_fatal_condition :
    (∀ (cfg : Config) (a : NewArgs) (fs : FS),
      (new cfg a fs).1 = if specNewFatal cfg a fs then some 1 else none) ∧
    (∀ (cfg : Config) (env : DeployEnv) (a : DeployArgs) (fs : FS),
      (deploy cfg env a fs).1
        = if specDeployFatal cfg a fs then some 1 else none) := by
  constructor
  · intro cfg a fs
    cases hpai : a.pai <;> cases hsa : a.standalone <;> cases hforce : a.force
    · by_cases ht : (fs (resolveNew cfg a.name false false).1).isSome = true <;>
        simp [new, specNewFatal, hpai, hsa, hforce, ht]
    · simp [new, specNewFatal, hpai, hsa, hforce]
    · by_cases ht : (fs (resolveNew cfg a.name false true).1).isSome = true <;>
        by_cases hd : (fs ((resolveNew cfg a.name false true).2.1.getD "")).isSome = true <;>
        simp [new, specNewFatal, hpai, hsa, hforce, ht, hd]
    · simp [new, specNewFatal, hpai, hsa, hforce]
    · by_cases ht : (fs (resolveNew cfg a.name true false).1).isSome = true <;>
        simp [new, specNewFatal, hpai, hsa, hforce, ht]
    · simp [new, specNewFatal, hpai, hsa, hforce]
    · simp [new, specNewFatal, hpai, hsa, hforce]
    · simp [new, specNewFatal, hpai, hsa, hforce]
  · intro cfg env a fs
    cases hn : (fs a.file).isNone <;>
      by_cases hs : pathSuffix a.file = ".py" <;>
      cases hforce : a.force <;>
      by_cases hd : (fs (deployToolDir cfg a)).isSome = true <;>
      simp [deploy, specDeployFatal, hn, hs, hforce, hd]

/-- C10: for every name, description and extra-dependency input the
manifest produced by `generate_pyproject` contains the three base
dependency declarations for typer, rich and doc2md; and the extra
dependencies are inserted as additional list entries directly after the
doc2md declaration, whitespace-trimmed and with empty comma-separated
entries skipped (`depEntries`). -/
theorem generate_pyproject_deps_insertion (name description : String)
    (extra : Option String) (ed : String) :
    ("    \"typer>=0.15.0\"," ∈ generate_pyproject_lines name description extra ∧
     "    \"rich>=13.7.1\"," ∈ generate_pyproject_lines name description extra ∧
     "    \"doc2md>=0.1.0\"," ∈ generate_pyproject_lines name description extra) ∧
    (∃ pre post, generate_pyproject_lines name description (some ed)
      = pre ++ "    \"doc2md>=0.1.0\"," :: (depEntries ed ++ post)) := by
  have hbase : "    \"typer>=0.15.0\"," ∈ PYPROJECT_TEMPLATE_lines name description ∧
      "    \"rich>=13.7.1\"," ∈ PYPROJECT_TEMPLATE_lines name description ∧
      "    \"doc2md>=0.1.0\"," ∈ PYPROJECT_TEMPLATE_lines name description := by
    refine ⟨?_, ?_, ?_⟩ <;> simp [PYPROJECT_TEMPLATE_lines]
  constructor
  · match extra with
    | none => exact hbase
    | some e =>
        by_cases he : e = ""
        · simpa [generate_pyproject_lines, he] using hbase
        · simp only [generate_pyproject_lines, he, if_false]
          exact ⟨mem_flatMap_self _ _ _ hbase.1, mem_flatMap_self _ _ _ hbase.2.1,
            mem_flatMap_self _ _ _ hbase.2.2⟩
  · by_cases hed : ed = ""
    · subst hed
      refine ⟨["[project]",
        "name = \"" ++ name ++ "\"",
        "version = \"0.1.0\"",
        "description = \"" ++ description ++ "\"",
        "requires-python = \">=3.10\"",
        "dependencies = [",
        "    \"typer>=0.15.0\",",
        "    \"rich>=13.7.1\","],
        ["]", "", "[project.scripts]",
         name ++ " = \"" ++ name ++ ":app\"",
         "", "[build-system]", "requires = [\"hatchling\"]",
         "build-backend = \"hatchling.build\"", ""], ?_⟩
      rfl
    · have h9 : pyContains "    \"doc2md>=0.1.0\"," DOC2MD_MARKER = true := by decide
      refine ⟨(["[project]",
        "name = \"" ++ name ++ "\"",
        "version = \"0.1.0\"",
        "description = \"" ++ description ++ "\"",
        "requires-python = \">=3.10\"",
        "dependencies = [",
        "    \"typer>=0.15.0\",",
        "    \"rich>=13.7.1\","]).flatMap (fun line =>
          line :: (if pyContains line DOC2MD_MARKER then depEntries ed else [])),
        (["]", "", "[project.scripts]",
         name ++ " = \"" ++ name ++ ":app\"",
         "", "[build-system]", "requires = [\"hatchling\"]",
         "build-backend = \"hatchling.build\"", ""]).flatMap (fun line =>
          line :: (if pyContains line DOC2MD_MARKER then depEntries ed else [])), ?_⟩
      have hsplit : PYPROJECT_TEMPLATE_lines name description
          = ["[project]",
        "name = \"" ++ name ++ "\"",
        "version = \"0.1.0\"",
        "description = \"" ++ description ++ "\"",
        "requires-python = \">=3.10\"",
        "dependencies = [",
        "    \"typer>=0.15.0\",",
        "    \"rich>=13.7.1\","] ++ "    \"doc2md>=0.1.0\"," ::
        ["]", "", "[project.scripts]",
         name ++ " = \"" ++ name ++ ":app\"",
         "", "[build-system]", "requires = [\"hatchling\"]",
         "build-backend = \"hatchling.build\"", ""] := rfl
      simp only [generate_pyproject_lines, hed, if_false, hsplit,
        List.flatMap_append, List.flatMap_cons, h9, if_true]
      simp

/-- C7: a successful `deploy` whose source path is distinct from every
path the operation writes (the container directory and the five artifact
paths inside or beside it) leaves, with `move`, no entry at the source path
and the source content at the target (marked executable); without `move` it
leaves the source entry untouched and the same content at the target. -/
theorem deploy_move_copy_semantics (cfg : Config) (env : DeployEnv) (a : DeployArgs) (fs : FS)
    (c : String) (m : Nat)
    (hsrc : fs a.file = some (.file c m))
    (hsuf : pathSuffix a.file = ".py")
    (hguard : ((fs (deployToolDir cfg a)).isSome && !a.force) = false)
    (hdisj : a.file ∉ [deployToolDir cfg a, deployTarget cfg a,
      joinPath (deployToolDir cfg a) "pyproject.toml",
      joinPath (deployToolDir cfg a) "README.md",
      joinPath (deployToolDir cfg a) ".gitignore",
      deploySymlink cfg a]) :
    (deploy cfg env a fs).1 = none ∧
    (deploy cfg env a fs).2 (deployTarget cfg a)
      = some (.file c (makeExecutableMode m)) ∧
    (a.move = true → (deploy cfg env a fs).2 a.file = none) ∧
    (a.move = false → (deploy cfg env a fs).2 a.file = some (.file c m)) := by
  simp only [List.mem_cons, List.not_mem_nil, or_false, not_or] at hdisj
  obtain ⟨hne_dir, hne_tgt, hne_pyp, hne_rdm, hne_git, hne_sym⟩ := hdisj
  have hn : (fs a.file).isNone = false := by rw [hsrc]; rfl
  have hT_pyp : deployTarget cfg a ≠ joinPath (deployToolDir cfg a) "pyproject.toml" :=
    deployTarget_ne_file cfg a _ (by decide)
  have hT_rdm : deployTarget cfg a ≠ joinPath (deployToolDir cfg a) "README.md" :=
    deployTarget_ne_file cfg a _ (by decide)
  have hT_git : deployTarget cfg a ≠ joinPath (deployToolDir cfg a) ".gitignore" :=
    deployTarget_ne_file cfg a _ (by decide)
  have hT_SL : deployTarget cfg a ≠ deploySymlink cfg a :=
    deployTarget_ne_symlink cfg a
  cases hmv : a.move
  · refine ⟨?_, ?_, ?_, ?_⟩
    · simp [deploy, hn, hsuf, hguard, hmv]
    · simp only [deploy, hn, hsuf, hguard, hmv, Bool.false_eq_true, if_false,
        decide_True, Bool.not_true, Bool.false_and, if_true]
      rw [setEntry_ne _ _ _ _ hT_SL, unlinkIf_ne _ _ _ hT_SL,
        writeText_ne _ _ _ _ hT_git, writeText_ne _ _ _ _ hT_rdm,
        writeText_ne _ _ _ _ hT_pyp]
      exact makeExecutable_file _ _ _ _
        (by rw [copyFile_dst, mkdirp_ne _ _ _ hne_dir, hsrc])
    · intro h; exact absurd h (by simp)
    · intro _
      simp only [deploy, hn, hsuf, hguard, hmv, Bool.false_eq_true, if_false,
        decide_True, Bool.not_true, Bool.false_and, if_true]
      rw [setEntry_ne _ _ _ _ hne_sym, unlinkIf_ne _ _ _ hne_sym,
        writeText_ne _ _ _ _ hne_git, writeText_ne _ _ _ _ hne_rdm,
        writeText_ne _ _ _ _ hne_pyp, makeExecutable_ne _ _ _ hne_tgt,
        copyFile_ne _ _ _ _ hne_tgt, mkdirp_ne _ _ _ hne_dir, hsrc]
  · refine ⟨?_, ?_, ?_, ?_⟩
    · simp [deploy, hn, hsuf, hguard, hmv]
    · simp only [deploy, hn, hsuf, hguard, hmv, Bool.false_eq_true, if_false,
        decide_True, Bool.not_true, Bool.false_and, if_true]
      rw [setEntry_ne _ _ _ _ hT_SL, unlinkIf_ne _ _ _ hT_SL,
        writeText_ne _ _ _ _ hT_git, writeText_ne _ _ _ _ hT_rdm,
        writeText_ne _ _ _ _ hT_pyp]
      exact makeExecutable_file _ _ _ _
        (by rw [moveFile_dst, mkdirp_ne _ _ _ hne_dir, hsrc])
    · intro _
      simp only [deploy, hn, hsuf, hguard, hmv, Bool.false_eq_true, if_false,
        decide_True, Bool.not_true, Bool.false_and, if_true]
      rw [setEntry_ne _ _ _ _ hne_sym, unlinkIf_ne _ _ _ hne_sym,
        writeText_ne _ _ _ _ hne_git, writeText_ne _ _ _ _ hne_rdm,
        writeText_ne _ _ _ _ hne_pyp, makeExecutable_ne _ _ _ hne_tgt,
        moveFile_src _ _ _ hne_tgt]
    · intro h; exact absurd h (by simp)

/-- Witness for C7 at a concrete move-deployment of one file. -/
theorem deploy_move_copy_semantics_witness :
    (deploy cfg0 env0 dargsC7 fsOneFile).1 = none ∧
    (deploy cfg0 env0 dargsC7 fsOneFile).2 (deployTarget cfg0 dargsC7)
      = some (.file "print(1)\n" (makeExecutableMode 420)) ∧
    (dargsC7.move = true →
      (deploy cfg0 env0 dargsC7 fsOneFile).2 dargsC7.file = none) ∧
    (dargsC7.move = false →
      (deploy cfg0 env0 dargsC7 fsOneFile).2 dargsC7.file
        = some (.file "print(1)\n" 420)) :=
  by
  refine deploy_move_copy_semantics cfg0 env0 dargsC7 fsOneFile
    "print(1)\n" 420 ?_ ?_ ?_ ?_ <;> decide

end Cli
